import Mathlib

/-!
Verification of the air-traffic simulation core of this repository.

The definitions below are a shallow embedding of the simulation code:
`PlaneModel`, the per-tick update `update_simulation`, the spawner
`spawn_plane`, the operator commands `change_heading`, `change_altitude`,
`try_land`, and the removal routine `remove_plane` of `src/2.py`,
together with the `update_simulation` of the second revision
`src/etienne&lili.py`.

Modelling conventions:
* Python floats are modelled as rationals (`ℚ`); the trigonometric
  functions `math.cos ∘ math.radians` and `math.sin ∘ math.radians` are
  abstracted as parameters `cosF sinF : ℚ → ℚ` (no property proved here
  depends on their values).
* `math.hypot dx dy < c` (resp. `≤ c`) with `c ≥ 0` is modelled as
  `dx^2 + dy^2 < c^2` (resp. `≤ c^2`), which is equivalent over the reals.
* Python's float `%` with positive modulus is modelled by `qmod360`.
* Randomness (`random.uniform`, `random.choice`, `random.randint`) is
  modelled by passing the drawn values explicitly as inputs.
* GUI calls (scene items, list widget, message boxes, timers) carry no
  simulation state; deferred-removal timers are modelled as the list of
  scheduled aircraft ids a tick emits, and message boxes as returned
  messages.
-/

namespace ATC

/-- Aircraft state record, mirroring the dataclass `PlaneModel` of
`src/2.py` (lines 34-46).  The `id` field is drawn by the caller
(`random.randint(1000, 9999)` in the source). -/
structure PlaneModel where
  callsign : String
  x : ℚ
  y : ℚ
  heading : ℚ
  speed_kmh : ℚ
  altitude : ℤ
  fuel : ℚ
  landed : Bool
  emergency : Option String
  crashed : Bool
  id : ℕ
deriving DecidableEq

/-- `RADAR_W` of `src/2.py`. -/
def RADAR_W : ℚ := 800

/-- `RADAR_H` of `src/2.py`. -/
def RADAR_H : ℚ := 700

/-- `SAFE_DISTANCE` of `src/2.py`. -/
def SAFE_DISTANCE : ℚ := 30

/-- `ALTITUDE_SAFE_DIFF` of `src/2.py`. -/
def ALTITUDE_SAFE_DIFF : ℤ := 300

/-- `LANDING_ZONE_RADIUS` of `src/2.py`. -/
def LANDING_ZONE_RADIUS : ℚ := 40

/-- `FUEL_CONSUMPTION_PER_TICK = 0.002` of `src/2.py`. -/
def FUEL_CONSUMPTION_PER_TICK : ℚ := 2 / 1000

/-- `PIXEL_TO_KM = 0.03` of `src/2.py`. -/
def PIXEL_TO_KM : ℚ := 3 / 100

/-- `dt = UPDATE_INTERVAL_MS / 1000.0` with `UPDATE_INTERVAL_MS = 50`. -/
def tickDt : ℚ := 50 / 1000

/-- `self.landing_center.x() = RADAR_W / 2`. -/
def landingCenterX : ℚ := RADAR_W / 2

/-- `self.landing_center.y() = RADAR_H / 2`. -/
def landingCenterY : ℚ := RADAR_H / 2

/-- The fuel burn of one tick:
`model.fuel - FUEL_CONSUMPTION_PER_TICK * (model.speed_kmh / 400)`
(`src/2.py` line 242). -/
def burnFuel (m : PlaneModel) : ℚ :=
  m.fuel - FUEL_CONSUMPTION_PER_TICK * (m.speed_kmh / 400)

/-- `speed_px_s = (model.speed_kmh / 3.6) / (PIXEL_TO_KM * 1000)`
(`src/2.py` line 257). -/
def speedPxS (m : PlaneModel) : ℚ :=
  (m.speed_kmh / (18 / 5)) / (PIXEL_TO_KM * 1000)

/-- `model.x += math.cos(rad) * speed_px_s * dt` (`src/2.py` line 259). -/
def movedX (cosF : ℚ → ℚ) (m : PlaneModel) : ℚ :=
  m.x + cosF m.heading * speedPxS m * tickDt

/-- `model.y += math.sin(rad) * speed_px_s * dt` (`src/2.py` line 260). -/
def movedY (sinF : ℚ → ℚ) (m : PlaneModel) : ℚ :=
  m.y + sinF m.heading * speedPxS m * tickDt

/-- The out-of-bounds test of `src/2.py` line 268, with `margin = 100`. -/
def outOfBounds (x y : ℚ) : Bool :=
  decide (x < -100 ∨ RADAR_W + 100 < x ∨ y < -100 ∨ RADAR_H + 100 < y)

/-- Result of processing one aircraft in the per-aircraft pass of
`update_simulation`: the updated record, whether it was appended to
`to_remove` (out of bounds), and whether `schedule_removal` was called
for it (crash). -/
structure StepOut where
  plane : PlaneModel
  oob : Bool
  schedCrash : Bool
deriving DecidableEq

/-- The per-aircraft body of the loop in `update_simulation`
(`src/2.py` lines 237-269): skip landed/crashed aircraft; burn fuel;
on fuel exhaustion set `fuel = 0`, the emergency string and `crashed`,
and skip motion; on `altitude < 100` set `crashed` and the ground-impact
emergency and skip motion; otherwise integrate position and test the
out-of-bounds margin. -/
def stepPlane (cosF sinF : ℚ → ℚ) (m : PlaneModel) : StepOut :=
  if m.landed || m.crashed then ⟨m, false, false⟩
  else if burnFuel m ≤ 0 then
    ⟨{ m with fuel := 0, emergency := some "Panne carburant", crashed := true },
      false, true⟩
  else if m.altitude < 100 then
    ⟨{ m with fuel := burnFuel m, crashed := true, emergency := some "Crash au sol" },
      false, true⟩
  else
    ⟨{ m with fuel := burnFuel m, x := movedX cosF m, y := movedY sinF m },
      outOfBounds (movedX cosF m) (movedY sinF m), false⟩

/-- The collision test for one pair in the scan of `src/2.py`
lines 275-277: both aircraft neither landed nor crashed, Euclidean
distance `< SAFE_DISTANCE` and altitude difference `< ALTITUDE_SAFE_DIFF`. -/
def collides (a b : PlaneModel) : Bool :=
  !(a.landed || b.landed || a.crashed || b.crashed) &&
    decide ((a.x - b.x) ^ 2 + (a.y - b.y) ^ 2 < SAFE_DISTANCE ^ 2 ∧
      |a.altitude - b.altitude| < ALTITUDE_SAFE_DIFF)

/-- The all-pairs scan of `src/2.py` lines 272-279: indices `i < j` in
list order, first hit wins (`handle_collision` then `return`). -/
def findCollision : List PlaneModel → Option (PlaneModel × PlaneModel)
  | [] => none
  | a :: rest =>
    match rest.find? (fun b => collides a b) with
    | some b => some (a, b)
    | none => findCollision rest

/-- The session state owned by `TowerSim`: `self.planes`, `self.score`
and `self.selected_plane_id`. -/
structure SimState where
  planes : List PlaneModel
  score : ℤ
  selected : Option ℕ
deriving DecidableEq

/-- Python's `list.remove` wrapped in `try ... except ValueError: pass`
(`src/2.py` lines 370-373): delete the first value-equal occurrence,
no-op when absent. -/
def removeFirst : List PlaneModel → PlaneModel → List PlaneModel
  | [], _ => []
  | a :: rest, m => if a = m then rest else a :: removeFirst rest m

/-- `remove_plane(model, penalize)` of `src/2.py` lines 364-381:
optionally decrement the score (floored at 0), delete the aircraft from
the collection (idempotently), and clear the selection when it pointed
at the removed id. -/
def removePlane (st : SimState) (m : PlaneModel) (penalize : Bool) : SimState :=
  { planes := removeFirst st.planes m
    score := if penalize then max 0 (st.score - 1) else st.score
    selected := if st.selected = some m.id then none else st.selected }

/-- The aircraft list after the per-aircraft pass of `update_simulation`
(positions/fuel/crash flags updated in place, order preserved). -/
def tickPostMove (cosF sinF : ℚ → ℚ) (planes : List PlaneModel) : List PlaneModel :=
  (planes.map (stepPlane cosF sinF)).map StepOut.plane

/-- The `to_remove` list a tick accumulates (out-of-bounds aircraft),
in iteration order. -/
def tickToRemove (cosF sinF : ℚ → ℚ) (planes : List PlaneModel) : List PlaneModel :=
  ((planes.map (stepPlane cosF sinF)).filter StepOut.oob).map StepOut.plane

/-- The ids passed to `schedule_removal` during a tick (crashed aircraft,
removed later by a 5 s one-shot timer). -/
def tickScheduled (cosF sinF : ℚ → ℚ) (planes : List PlaneModel) : List ℕ :=
  ((planes.map (stepPlane cosF sinF)).filter StepOut.schedCrash).map
    (fun o => o.plane.id)

/-- Everything one call of `update_simulation` produces: the session
state, the ids handed to the deferred-removal timer, and the collision
event (ids of the pair), `none` when no collision was found. -/
structure TickResult where
  state : SimState
  scheduled : List ℕ
  collision : Option (ℕ × ℕ)
deriving DecidableEq

/-- `update_simulation` of `src/2.py` lines 233-292: run the
per-aircraft pass, then the all-pairs collision scan; on the first
colliding pair, `handle_collision` is called and the function returns at
once, so the queued out-of-bounds removals are not applied; otherwise
every `to_remove` entry is removed with `penalize=False`. -/
def update_simulation (cosF sinF : ℚ → ℚ) (s : SimState) : TickResult :=
  let pm := tickPostMove cosF sinF s.planes
  let base : SimState := { planes := pm, score := s.score, selected := s.selected }
  match findCollision pm with
  | some (a, b) => ⟨base, tickScheduled cosF sinF s.planes, some (a.id, b.id)⟩
  | none =>
    ⟨(tickToRemove cosF sinF s.planes).foldl (fun st m => removePlane st m false) base,
      tickScheduled cosF sinF s.planes, none⟩

/-- `next((p for p in self.planes if p.id == self.selected_plane_id), None)`:
resolve the current selection to the first aircraft carrying that id. -/
def findSelected (s : SimState) : Option PlaneModel :=
  match s.selected with
  | none => none
  | some pid => s.planes.find? (fun p => p.id == pid)

/-- In-place mutation of the aircraft found by id: replace the first
element whose `id` matches. -/
def setFirstById (pid : ℕ) (f : PlaneModel → PlaneModel) :
    List PlaneModel → List PlaneModel
  | [] => []
  | p :: rest => if p.id = pid then f p :: rest else p :: setFirstById pid f rest

/-- Python's float `%` with modulus `360` (result in `[0, 360)`). -/
def qmod360 (x : ℚ) : ℚ := x - 360 * (⌊x / 360⌋ : ℤ)

/-- The heading write of `change_heading`:
`model.heading = (model.heading + delta) % 360` (`src/2.py` line 339). -/
def turnBy (delta : ℚ) (p : PlaneModel) : PlaneModel :=
  { p with heading := qmod360 (p.heading + delta) }

/-- The altitude write of `change_altitude`:
`model.altitude = max(0, model.altitude + delta)` (`src/2.py` line 346). -/
def climbBy (delta : ℤ) (p : PlaneModel) : PlaneModel :=
  { p with altitude := max 0 (p.altitude + delta) }

/-- The landing writes of `try_land`: `model.landed = True`,
`model.speed_kmh = 0` (`src/2.py` lines 355-356). -/
def landPlane (p : PlaneModel) : PlaneModel :=
  { p with landed := true, speed_kmh := 0 }

/-- `change_heading(delta)` of `src/2.py` lines 336-341: apply `turnBy`
to the selected aircraft, silently doing nothing when the selection
resolves to no aircraft. -/
def change_heading (delta : ℚ) (s : SimState) : SimState :=
  match findSelected s with
  | none => s
  | some m => { s with planes := setFirstById m.id (turnBy delta) s.planes }

/-- `change_altitude(delta)` of `src/2.py` lines 343-347: apply
`climbBy` to the selected aircraft, silently doing nothing when the
selection resolves to no aircraft. -/
def change_altitude (delta : ℤ) (s : SimState) : SimState :=
  match findSelected s with
  | none => s
  | some m => { s with planes := setFirstById m.id (climbBy delta) s.planes }

/-- What one call of `try_land` produces: the session state, the message
box text shown on rejection, and the id handed to the 1 s
deferred-removal timer on success. -/
structure LandResult where
  state : SimState
  message : Option String
  scheduledId : Option ℕ
deriving DecidableEq

/-- `try_land` of `src/2.py` lines 349-362: resolve the selection (silent
return when it fails); when the distance to the landing center is at most
`LANDING_ZONE_RADIUS` and the altitude at most 800, set `landed`, zero the
speed, add 10 to the score and schedule a non-penalized removal;
otherwise show the rejection message and change nothing. -/
def try_land (s : SimState) : LandResult :=
  match findSelected s with
  | none => ⟨s, none, none⟩
  | some m =>
    if (m.x - landingCenterX) ^ 2 + (m.y - landingCenterY) ^ 2 ≤
        LANDING_ZONE_RADIUS ^ 2 ∧ m.altitude ≤ 800 then
      ⟨{ planes := setFirstById m.id landPlane s.planes, score := s.score + 10,
          selected := s.selected }, none, some m.id⟩
    else ⟨s, some "Hors zone ou altitude trop élevée (<=800m).", none⟩

/-- The four spawn edges of `spawn_plane`. -/
inductive SpawnEdge
  | top
  | bottom
  | left
  | right
deriving DecidableEq

/-- `margin = 10` inside `spawn_plane`. -/
def spawnMargin : ℚ := 10

/-- One candidate of the spawn loop: the two `random.uniform` draws of
the attempt (`u` the free coordinate, `v` the heading) combined with the
edge, as in `src/2.py` lines 205-212. -/
structure SpawnCandidate where
  x : ℚ
  y : ℚ
  heading : ℚ
deriving DecidableEq

/-- Build the candidate for an edge from the attempt's two uniform
draws. -/
def candidateFor (e : SpawnEdge) (u v : ℚ) : SpawnCandidate :=
  match e with
  | .top => ⟨u, -spawnMargin, v⟩
  | .bottom => ⟨u, RADAR_H + spawnMargin, v⟩
  | .left => ⟨-spawnMargin, u, v⟩
  | .right => ⟨RADAR_W + spawnMargin, u, v⟩

/-- `all(math.hypot(p.x - x, p.y - y) > 80 for p in self.planes)`
(`src/2.py` line 213). -/
def farFromAll (planes : List PlaneModel) (c : SpawnCandidate) : Bool :=
  planes.all (fun p => decide ((p.x - c.x) ^ 2 + (p.y - c.y) ^ 2 > 80 ^ 2))

/-- The `while True` rejection loop of `spawn_plane` (`src/2.py` lines
203-214), with the random draws of attempt `n` supplied by `draw n`:
accept the candidate as soon as it is separated from every existing
aircraft or `attempt > 10`; return the accepted candidate together with
the number of the accepting attempt. -/
def spawnLoop (e : SpawnEdge) (draw : ℕ → ℚ × ℚ) (planes : List PlaneModel)
    (attempt : ℕ) : SpawnCandidate × ℕ :=
  let c := candidateFor e (draw attempt).1 (draw attempt).2
  if farFromAll planes c = true ∨ 10 < attempt then (c, attempt)
  else spawnLoop e draw planes (attempt + 1)
termination_by 11 - attempt
decreasing_by
  rename_i h
  rw [not_or, not_lt] at h
  omega

/-- The random draws one call of `spawn_plane` consumes, besides the
per-attempt uniforms: the edge, the callsign, speed, altitude and fuel
of the new aircraft, and the `random.randint(1000, 9999)` id. -/
structure SpawnRands where
  edge : SpawnEdge
  draw : ℕ → ℚ × ℚ
  callsign : String
  speed_kmh : ℚ
  altitude : ℤ
  fuel : ℚ
  newId : ℕ

/-- `spawn_plane` of `src/2.py` lines 198-226: run the rejection loop
from attempt 1, build the `PlaneModel` with `heading % 360` and the
drawn id, and append it to `self.planes`.  No id-uniqueness check is
performed. -/
def spawn_plane (r : SpawnRands) (s : SimState) : SimState :=
  let c := (spawnLoop r.edge r.draw s.planes 1).1
  let model : PlaneModel :=
    { callsign := r.callsign, x := c.x, y := c.y, heading := qmod360 c.heading,
      speed_kmh := r.speed_kmh, altitude := r.altitude, fuel := r.fuel,
      landed := false, emergency := none, crashed := false, id := r.newId }
  { s with planes := s.planes ++ [model] }

/-- The per-aircraft loop of `update_simulation` in
`src/etienne&lili.py` lines 232-277.  In that revision the comment and
the fuel/motion code (lines 235-263) are indented under the `continue`
of line 234 and therefore unreachable; the collision scan (lines
266-274) and the application of the always-empty `to_remove` (lines
276-277) sit inside the per-aircraft loop and run once per
not-landed-and-not-crashed aircraft, on an unchanged aircraft list;
a found collision returns from the whole function. -/
def elLoop (planes : List PlaneModel) : List PlaneModel → Option (ℕ × ℕ)
  | [] => none
  | m :: rest =>
    if m.landed || m.crashed then elLoop planes rest
    else
      match findCollision planes with
      | some (a, b) => some (a.id, b.id)
      | none => elLoop planes rest

/-- `update_simulation` of `src/etienne&lili.py` lines 228-277: because
of the indentation described at `elLoop`, the tick never burns fuel,
never moves an aircraft, never sets crash flags, schedules no removals
and removes nothing; it only reports the collision the scan finds. -/
def update_simulationEL (s : SimState) : TickResult :=
  ⟨s, [], elLoop s.planes s.planes⟩

/-! ### Concrete scenario states used by the claim proofs -/

/-- A crashed (hence no-longer-active) aircraft that is still selected,
as happens during the five-second wreckage window. -/
def c4Plane : PlaneModel :=
  ⟨"C4", 0, 0, 0, 300, 1000, 50, false, some "Crash au sol", true, 7⟩

/-- Session state in which the crashed `c4Plane` is still selected. -/
def c4State : SimState := ⟨[c4Plane], 0, some 7⟩

/-- An aircraft that is no longer tracked anywhere. -/
def c7Ghost : PlaneModel := ⟨"GH1", 0, 0, 0, 300, 2000, 50, false, none, false, 99⟩

/-- A session state from which `c7Ghost` has already been removed. -/
def c7State : SimState := ⟨[], 5, none⟩

/-- Two active aircraft used by concrete tick and command scenarios. -/
def w8Plane : PlaneModel := ⟨"W8", 10, 20, 350, 400, 2000, 50, false, none, false, 5⟩

/-- A session with `w8Plane` selected. -/
def w8State : SimState := ⟨[w8Plane], 0, some 5⟩

/-- First aircraft of the concrete collision scenario (stationary:
`speed_kmh = 0`, so the per-aircraft pass changes nothing). -/
def w1A : PlaneModel := ⟨"W1A", 400, 350, 0, 0, 2000, 50, false, none, false, 11⟩

/-- Second aircraft of the concrete collision scenario, 5 units away and
100 m below the first. -/
def w1B : PlaneModel := ⟨"W1B", 405, 350, 0, 0, 2100, 60, false, none, false, 12⟩

/-- State holding the two colliding aircraft. -/
def w1State : SimState := ⟨[w1A, w1B], 0, none⟩

/-- An aircraft about to run out of fuel: `0.001 %` left, burning
`0.002 %` this tick. -/
def w2Plane : PlaneModel :=
  ⟨"W2", 100, 100, 0, 400, 2000, 1 / 1000, false, none, false, 3⟩

/-- State holding the fuel-starved aircraft. -/
def w2State : SimState := ⟨[w2Plane], 0, none⟩

/-- An aircraft hovering over the landing zone center at 500 m. -/
def w3Plane : PlaneModel := ⟨"W3", 400, 350, 90, 250, 500, 70, false, none, false, 21⟩

/-- State with the landable aircraft selected. -/
def w3State : SimState := ⟨[w3Plane], 0, some 21⟩

/-- An aircraft already tracked under id 1234. -/
def c6Existing : PlaneModel := ⟨"IP101", 0, 0, 0, 300, 3000, 50, false, none, false, 1234⟩

/-- Session tracking `c6Existing`. -/
def c6State : SimState := ⟨[c6Existing], 0, none⟩

/-- A run of the spawner's random draws whose `random.randint(1000, 9999)`
id draw repeats the already-used 1234. -/
def c6Rands : SpawnRands :=
  ⟨SpawnEdge.top, fun _ => (400, 180), "AF555", 300, 3000, 60, 1234⟩

/-- An ordinary active aircraft, for comparing the two revisions. -/
def c9Plane : PlaneModel := ⟨"EL1", 100, 100, 0, 400, 2000, 50, false, none, false, 42⟩

/-- Session tracking the single active `c9Plane`. -/
def c9State : SimState := ⟨[c9Plane], 0, none⟩

/-- A crashed aircraft awaiting its deferred removal. -/
def c9Crashed : PlaneModel :=
  ⟨"EL2", 50, 60, 0, 300, 1500, 40, false, some "Crash au sol", true, 43⟩

/-- An ordinary active aircraft for the frame-property scenarios. -/
def w10Plane : PlaneModel := ⟨"W10", 30, 40, 0, 200, 3000, 80, false, none, false, 77⟩

/-- Session with `w10Plane` and nothing selected. -/
def w10State : SimState := ⟨[w10Plane], 1, none⟩

/-! ### Structural lemmas about the embedding -/

/-- The per-aircraft step never changes the aircraft id. -/
lemma stepPlane_id (cosF sinF : ℚ → ℚ) (m : PlaneModel) :
    ((stepPlane cosF sinF m).plane).id = m.id := by
  unfold stepPlane
  split
  · rfl
  split
  · rfl
  split
  · rfl
  · rfl

/-- The per-aircraft step never changes the speed. -/
lemma stepPlane_speed (cosF sinF : ℚ → ℚ) (m : PlaneModel) :
    ((stepPlane cosF sinF m).plane).speed_kmh = m.speed_kmh := by
  unfold stepPlane
  split
  · rfl
  split
  · rfl
  split
  · rfl
  · rfl

/-- A landed or crashed aircraft is skipped whole by the per-aircraft
pass. -/
lemma stepPlane_inactive (cosF sinF : ℚ → ℚ) (m : PlaneModel)
    (h : m.landed = true ∨ m.crashed = true) :
    stepPlane cosF sinF m = ⟨m, false, false⟩ := by
  have hb : (m.landed || m.crashed) = true := by rcases h with h | h <;> simp [h]
  unfold stepPlane
  rw [if_pos hb]

/-- An aircraft queued in `to_remove` (out of bounds) is not crashed:
only the motion branch can set the flag, and it keeps `crashed = false`. -/
lemma stepPlane_oob_not_crashed (cosF sinF : ℚ → ℚ) (m : PlaneModel) :
    (stepPlane cosF sinF m).oob = true →
    (stepPlane cosF sinF m).plane.crashed = false := by
  unfold stepPlane
  split
  · simp
  split
  · simp
  split
  · simp
  · rename_i hact _ _
    intro _
    simp only [Bool.or_eq_true, not_or] at hact
    simpa using hact.2

/-- Membership survives `removeFirst` for values different from the
removed one. -/
lemma mem_removeFirst_of_ne {l : List PlaneModel} {p r : PlaneModel}
    (hp : p ∈ l) (hne : p ≠ r) : p ∈ removeFirst l r := by
  induction l with
  | nil => simp at hp
  | cons a rest ih =>
    unfold removeFirst
    rcases List.mem_cons.mp hp with h | h
    · subst h
      rw [if_neg hne]
      exact List.mem_cons_self p (removeFirst rest r)
    · by_cases ha : a = r
      · rw [if_pos ha]; exact h
      · rw [if_neg ha]; exact List.mem_cons_of_mem a (ih h)

/-- `removeFirst` only deletes. -/
lemma removeFirst_subset {l : List PlaneModel} {r p : PlaneModel}
    (h : p ∈ removeFirst l r) : p ∈ l := by
  induction l with
  | nil => simp [removeFirst] at h
  | cons a rest ih =>
    unfold removeFirst at h
    by_cases ha : a = r
    · rw [if_pos ha] at h
      exact List.mem_cons_of_mem a h
    · rw [if_neg ha] at h
      rcases List.mem_cons.mp h with h | h
      · exact h ▸ List.mem_cons_self a rest
      · exact List.mem_cons_of_mem a (ih h)

/-- Removing an absent value is a no-op on the list. -/
lemma removeFirst_of_not_mem {l : List PlaneModel} {r : PlaneModel}
    (h : r ∉ l) : removeFirst l r = l := by
  induction l with
  | nil => rfl
  | cons a rest ih =>
    unfold removeFirst
    rw [if_neg (fun har => h (by rw [← har]; exact List.mem_cons_self a rest))]
    rw [ih (fun hr => h (List.mem_cons_of_mem a hr))]

/-- An aircraft distinct from every entry of the removal queue survives
the removal fold of a tick. -/
lemma mem_foldl_removePlane {rs : List PlaneModel} :
    ∀ (st : SimState) (p : PlaneModel), p ∈ st.planes → (∀ r ∈ rs, p ≠ r) →
      p ∈ (rs.foldl (fun st m => removePlane st m false) st).planes := by
  induction rs with
  | nil => intro st p hp _; simpa using hp
  | cons r rs ih =>
    intro st p hp hne
    simp only [List.foldl_cons]
    refine ih _ p ?_ (fun q hq => hne q (List.mem_cons_of_mem r hq))
    exact mem_removeFirst_of_ne hp (hne r (List.mem_cons_self r rs))

/-- The removal fold of a tick only deletes aircraft. -/
lemma mem_of_mem_foldl_removePlane {rs : List PlaneModel} :
    ∀ (st : SimState) (p : PlaneModel),
      p ∈ (rs.foldl (fun st m => removePlane st m false) st).planes →
      p ∈ st.planes := by
  induction rs with
  | nil => intro st p hp; simpa using hp
  | cons r rs ih =>
    intro st p hp
    simp only [List.foldl_cons] at hp
    exact removeFirst_subset (ih _ p hp)

/-- The pair the scan reports does satisfy the collision test. -/
lemma findCollision_some {l : List PlaneModel} {a b : PlaneModel}
    (h : findCollision l = some (a, b)) : collides a b = true := by
  induction l with
  | nil => simp [findCollision] at h
  | cons c rest ih =>
    unfold findCollision at h
    cases hf : rest.find? (fun x => collides c x) with
    | some d =>
      rw [hf] at h
      have hd := List.find?_some hf
      simp only [Option.some.injEq, Prod.mk.injEq] at h
      rw [← h.1, ← h.2]
      exact hd
    | none =>
      rw [hf] at h
      exact ih h

/-- If some later-indexed pair collides, the scan reports a pair. -/
lemma findCollision_isSome_split :
    ∀ (l1 : List PlaneModel) (a : PlaneModel) (l2 : List PlaneModel)
      (b : PlaneModel) (l3 : List PlaneModel), collides a b = true →
      (findCollision (l1 ++ a :: (l2 ++ b :: l3))).isSome = true := by
  intro l1
  induction l1 with
  | nil =>
    intro a l2 b l3 hab
    simp only [List.nil_append]
    unfold findCollision
    cases hf : (l2 ++ b :: l3).find? (fun x => collides a x) with
    | some d => simp
    | none =>
      rw [List.find?_eq_none] at hf
      exact absurd hab (hf b (by simp))
  | cons c l1 ih =>
    intro a l2 b l3 hab
    simp only [List.cons_append]
    unfold findCollision
    cases hf : (l1 ++ a :: (l2 ++ b :: l3)).find? (fun x => collides c x) with
    | some d => simp
    | none => simpa using ih a l2 b l3 hab

/-- A scan over aircraft that are all landed or crashed finds nothing. -/
lemma findCollision_none_inactive {l : List PlaneModel}
    (h : ∀ m ∈ l, m.landed = true ∨ m.crashed = true) : findCollision l = none := by
  induction l with
  | nil => rfl
  | cons a rest ih =>
    unfold findCollision
    have hfind : rest.find? (fun b => collides a b) = none := by
      rw [List.find?_eq_none]
      intro b _
      have ha := h a (List.mem_cons_self a rest)
      rcases ha with ha | ha <;> simp [collides, ha]
    rw [hfind]
    exact ih (fun m hm => h m (List.mem_cons_of_mem a hm))

/-- The second revision's loop reports nothing when the scan it repeats
reports nothing. -/
lemma elLoop_none {planes : List PlaneModel}
    (hc : findCollision planes = none) :
    ∀ l : List PlaneModel, elLoop planes l = none := by
  intro l
  induction l with
  | nil => rfl
  | cons m rest ih =>
    unfold elLoop
    split
    · exact ih
    · rw [hc]
      exact ih

/-- Shifting by an integer multiple of 360 does not change the Python
float modulus. -/
lemma qmod360_sub_int (x : ℚ) (k : ℤ) : qmod360 (x - 360 * (k : ℚ)) = qmod360 x := by
  unfold qmod360
  have hdiv : (x - 360 * (k : ℚ)) / 360 = x / 360 - (k : ℚ) := by ring
  rw [hdiv, Int.floor_sub_int]
  push_cast
  ring

/-- Applying the modulus before adding is the same as adding first:
the key algebraic fact behind composing `turn` commands. -/
lemma qmod360_add_left (a b : ℚ) : qmod360 (qmod360 a + b) = qmod360 (a + b) := by
  have h : qmod360 a + b = (a + b) - 360 * ((⌊a / 360⌋ : ℤ) : ℚ) := by
    unfold qmod360; ring
  rw [h, qmod360_sub_int]

/-- The Python float modulus by 360 is non-negative. -/
lemma qmod360_nonneg (x : ℚ) : 0 ≤ qmod360 x := by
  unfold qmod360
  have h := Int.floor_le (x / 360)
  have h2 : (360 : ℚ) * ((⌊x / 360⌋ : ℤ) : ℚ) ≤ 360 * (x / 360) :=
    mul_le_mul_of_nonneg_left h (by norm_num)
  have h3 : (360 : ℚ) * (x / 360) = x := by ring
  linarith

/-- The Python float modulus by 360 is below 360. -/
lemma qmod360_lt (x : ℚ) : qmod360 x < 360 := by
  unfold qmod360
  have h := Int.lt_floor_add_one (x / 360)
  have h2 : (360 : ℚ) * (x / 360) < 360 * (((⌊x / 360⌋ : ℤ) : ℚ) + 1) :=
    mul_lt_mul_of_pos_left h (by norm_num)
  have h3 : (360 : ℚ) * (x / 360) = x := by ring
  linarith

/-- Resolving an id after an in-place mutation that keeps ids intact
yields the mutated aircraft. -/
lemma find?_setFirstById {l : List PlaneModel} {pid : ℕ} {m : PlaneModel}
    {f : PlaneModel → PlaneModel} (hf : ∀ p, (f p).id = p.id)
    (h : l.find? (fun p => p.id == pid) = some m) :
    (setFirstById pid f l).find? (fun p => p.id == pid) = some (f m) := by
  induction l with
  | nil => simp at h
  | cons a rest ih =>
    by_cases ha : a.id = pid
    · rw [List.find?_cons_of_pos _ (by simpa using ha)] at h
      have ham : a = m := by simpa using h
      subst ham
      unfold setFirstById
      rw [if_pos ha]
      exact List.find?_cons_of_pos _ (by simpa using (hf a).trans ha)
    · rw [List.find?_cons_of_neg _ (by simpa using ha)] at h
      unfold setFirstById
      rw [if_neg ha]
      rw [List.find?_cons_of_neg _ (by simpa using ha)]
      exact ih h

/-- Unfolding `setFirstById` at a matching head. -/
lemma setFirstById_cons_pos {pid : ℕ} {f : PlaneModel → PlaneModel}
    {a : PlaneModel} {rest : List PlaneModel} (h : a.id = pid) :
    setFirstById pid f (a :: rest) = f a :: rest := by
  show (if a.id = pid then f a :: rest else a :: setFirstById pid f rest) = _
  rw [if_pos h]

/-- Unfolding `setFirstById` at a non-matching head. -/
lemma setFirstById_cons_neg {pid : ℕ} {f : PlaneModel → PlaneModel}
    {a : PlaneModel} {rest : List PlaneModel} (h : ¬a.id = pid) :
    setFirstById pid f (a :: rest) = a :: setFirstById pid f rest := by
  show (if a.id = pid then f a :: rest else a :: setFirstById pid f rest) = _
  rw [if_neg h]

/-- Two consecutive in-place mutations of the same id compose, provided
the first keeps the id. -/
lemma setFirstById_comp {pid : ℕ} {f g : PlaneModel → PlaneModel}
    (hf : ∀ p, (f p).id = p.id) :
    ∀ l : List PlaneModel,
      setFirstById pid g (setFirstById pid f l) =
        setFirstById pid (fun p => g (f p)) l := by
  intro l
  induction l with
  | nil => rfl
  | cons a rest ih =>
    by_cases ha : a.id = pid
    · rw [setFirstById_cons_pos ha, setFirstById_cons_pos ha,
        setFirstById_cons_pos ((hf a).trans ha)]
    · rw [setFirstById_cons_neg ha, setFirstById_cons_neg ha,
        setFirstById_cons_neg ha, ih]

/-- Every element after an in-place mutation by id comes from the
original list, either untouched or mutated. -/
lemma mem_setFirstById {pid : ℕ} {f : PlaneModel → PlaneModel}
    {p' : PlaneModel} :
    ∀ {l : List PlaneModel}, p' ∈ setFirstById pid f l →
      ∃ p ∈ l, p' = p ∨ p' = f p := by
  intro l
  induction l with
  | nil => intro h; simp [setFirstById] at h
  | cons a rest ih =>
    intro h
    unfold setFirstById at h
    by_cases ha : a.id = pid
    · rw [if_pos ha] at h
      rcases List.mem_cons.mp h with h | h
      · exact ⟨a, List.mem_cons_self a rest, Or.inr h⟩
      · exact ⟨p', List.mem_cons_of_mem a h, Or.inl rfl⟩
    · rw [if_neg ha] at h
      rcases List.mem_cons.mp h with h | h
      · exact ⟨a, List.mem_cons_self a rest, Or.inl h⟩
      · obtain ⟨p, hp, hor⟩ := ih h
        exact ⟨p, List.mem_cons_of_mem a hp, hor⟩

/-- A tick that finds a collision: the whole result spelled out. -/
lemma update_simulation_of_collision {cosF sinF : ℚ → ℚ} {s : SimState}
    {a b : PlaneModel}
    (h : findCollision (tickPostMove cosF sinF s.planes) = some (a, b)) :
    update_simulation cosF sinF s =
      ⟨{ planes := tickPostMove cosF sinF s.planes, score := s.score,
          selected := s.selected },
        tickScheduled cosF sinF s.planes, some (a.id, b.id)⟩ := by
  unfold update_simulation
  simp only [h]

/-- A tick that finds no collision: the whole result spelled out. -/
lemma update_simulation_of_no_collision {cosF sinF : ℚ → ℚ} {s : SimState}
    (h : findCollision (tickPostMove cosF sinF s.planes) = none) :
    update_simulation cosF sinF s =
      ⟨(tickToRemove cosF sinF s.planes).foldl (fun st m => removePlane st m false)
          { planes := tickPostMove cosF sinF s.planes, score := s.score,
            selected := s.selected },
        tickScheduled cosF sinF s.planes, none⟩ := by
  unfold update_simulation
  simp only [h]

/-- Any aircraft present after a tick was present after the per-aircraft
pass (removals only delete). -/
lemma mem_update_simulation_planes {cosF sinF : ℚ → ℚ} {s : SimState}
    {p : PlaneModel}
    (h : p ∈ (update_simulation cosF sinF s).state.planes) :
    p ∈ tickPostMove cosF sinF s.planes := by
  cases hcol : findCollision (tickPostMove cosF sinF s.planes) with
  | some pr =>
    obtain ⟨a, b⟩ := pr
    rw [update_simulation_of_collision hcol] at h
    exact h
  | none =>
    rw [update_simulation_of_no_collision hcol] at h
    exact mem_of_mem_foldl_removePlane _ p h

/-- Every entry of the removal queue of a tick is an out-of-bounds,
non-crashed aircraft. -/
lemma mem_tickToRemove_not_crashed {cosF sinF : ℚ → ℚ}
    {planes : List PlaneModel} {r : PlaneModel}
    (h : r ∈ tickToRemove cosF sinF planes) : r.crashed = false := by
  unfold tickToRemove at h
  obtain ⟨o, ho, rfl⟩ := List.mem_map.mp h
  have hoob : o.oob = true := List.of_mem_filter ho
  have ho2 : o ∈ planes.map (stepPlane cosF sinF) := List.mem_of_mem_filter ho
  obtain ⟨m, _, rfl⟩ := List.mem_map.mp ho2
  exact stepPlane_oob_not_crashed cosF sinF m hoob

/-- The rejection loop of the spawner, started at any attempt number up
to the cap: it accepts within the cap, and the accepted candidate is
separated from every existing aircraft unless it is the unconditional
attempt-11 sample. -/
lemma spawnLoop_spec (e : SpawnEdge) (draw : ℕ → ℚ × ℚ)
    (planes : List PlaneModel) :
    ∀ (k attempt : ℕ), 11 - attempt = k → 1 ≤ attempt → attempt ≤ 11 →
      (spawnLoop e draw planes attempt).2 ≤ 11 ∧
        (farFromAll planes (spawnLoop e draw planes attempt).1 = true ∨
          ((spawnLoop e draw planes attempt).2 = 11 ∧
            (spawnLoop e draw planes attempt).1 =
              candidateFor e (draw 11).1 (draw 11).2)) := by
  intro k
  induction k with
  | zero =>
    intro attempt h0 _ h11
    have ha : attempt = 11 := by omega
    subst ha
    rw [spawnLoop]
    rw [if_pos (Or.inr (by norm_num))]
    exact ⟨le_refl 11, Or.inr ⟨rfl, rfl⟩⟩
  | succ k ih =>
    intro attempt h0 h1 h11
    rw [spawnLoop]
    by_cases hcond :
        farFromAll planes (candidateFor e (draw attempt).1 (draw attempt).2) = true ∨
          10 < attempt
    · rw [if_pos hcond]
      refine ⟨h11, ?_⟩
      rcases hcond with hfar | hgt
      · exact Or.inl hfar
      · have ha : attempt = 11 := by omega
        subst ha
        exact Or.inr ⟨rfl, rfl⟩
    · rw [if_neg hcond]
      rw [not_or, not_lt] at hcond
      exact ih (attempt + 1) (by omega) (by omega) (by omega)

/-- Resolving the selection from its two raw pieces. -/
lemma findSelected_eq {s : SimState} {pid : ℕ} {m : PlaneModel}
    (hsel : s.selected = some pid)
    (hfind : s.planes.find? (fun p => p.id == pid) = some m) :
    findSelected s = some m := by
  unfold findSelected
  rw [hsel]
  exact hfind

/-- The resolved aircraft carries the selected id. -/
lemma findSelected_id {planes : List PlaneModel} {pid : ℕ} {m : PlaneModel}
    (hfind : planes.find? (fun p => p.id == pid) = some m) : m.id = pid := by
  simpa using List.find?_some hfind

/-- `change_heading` at an unresolved selection is the identity. -/
lemma change_heading_none {s : SimState} (h : findSelected s = none) (d : ℚ) :
    change_heading d s = s := by
  unfold change_heading
  rw [h]

/-- `change_heading` at a resolved selection, spelled out. -/
lemma change_heading_some {s : SimState} {m : PlaneModel}
    (h1 : findSelected s = some m) (d : ℚ) :
    change_heading d s =
      { s with planes := setFirstById m.id (turnBy d) s.planes } := by
  unfold change_heading
  rw [h1]

/-- `turnBy` keeps the aircraft id. -/
lemma turnBy_id (d : ℚ) (p : PlaneModel) : (turnBy d p).id = p.id := rfl

/-- Two consecutive turns compose additively: the pointwise form of the
`(h + d1) % 360 + d2) % 360 = (h + (d1 + d2)) % 360` identity. -/
lemma turnBy_comp (d1 d2 : ℚ) :
    (fun p => turnBy d2 (turnBy d1 p)) = turnBy (d1 + d2) := by
  funext p
  unfold turnBy
  show ({ p with heading := qmod360 (qmod360 (p.heading + d1) + d2) } :
      PlaneModel) = _
  rw [qmod360_add_left, add_assoc]

/-- A per-aircraft pass over landed/crashed aircraft only is the
identity. -/
lemma tickPostMove_inactive (cosF sinF : ℚ → ℚ) :
    ∀ planes : List PlaneModel,
      (∀ m ∈ planes, m.landed = true ∨ m.crashed = true) →
      tickPostMove cosF sinF planes = planes := by
  intro planes
  induction planes with
  | nil => intro _; rfl
  | cons a rest ih =>
    intro h
    unfold tickPostMove
    simp only [List.map_cons]
    rw [stepPlane_inactive cosF sinF a (h a (List.mem_cons_self a rest))]
    exact congrArg (List.cons a) (ih fun m hm => h m (List.mem_cons_of_mem a hm))

/-- No aircraft is queued for removal when all are landed or crashed. -/
lemma tickToRemove_inactive (cosF sinF : ℚ → ℚ) :
    ∀ planes : List PlaneModel,
      (∀ m ∈ planes, m.landed = true ∨ m.crashed = true) →
      tickToRemove cosF sinF planes = [] := by
  intro planes
  induction planes with
  | nil => intro _; rfl
  | cons a rest ih =>
    intro h
    unfold tickToRemove
    simp only [List.map_cons]
    rw [stepPlane_inactive cosF sinF a (h a (List.mem_cons_self a rest))]
    rw [List.filter_cons_of_neg (by simp)]
    exact ih fun m hm => h m (List.mem_cons_of_mem a hm)

/-- No delayed removal is scheduled when all aircraft are landed or
crashed. -/
lemma tickScheduled_inactive (cosF sinF : ℚ → ℚ) :
    ∀ planes : List PlaneModel,
      (∀ m ∈ planes, m.landed = true ∨ m.crashed = true) →
      tickScheduled cosF sinF planes = [] := by
  intro planes
  induction planes with
  | nil => intro _; rfl
  | cons a rest ih =>
    intro h
    unfold tickScheduled
    simp only [List.map_cons]
    rw [stepPlane_inactive cosF sinF a (h a (List.mem_cons_self a rest))]
    rw [List.filter_cons_of_neg (by simp)]
    exact ih fun m hm => h m (List.mem_cons_of_mem a hm)

/-! ### Claim C4 -/

/-- Claim C4, counterexample: the commands only check that the selection
resolves to a tracked aircraft, not that it is active; `change_heading`
mutates the heading of a selected aircraft that has already crashed, so
a command on an inactive selected aircraft is not a no-op. -/
theorem command_mutates_inactive_selected :
    c4Plane.crashed = true ∧ c4State.selected = some c4Plane.id ∧
      change_heading 15 c4State ≠ c4State := by
  refine ⟨rfl, rfl, ?_⟩
  intro hEq
  have hpl := congrArg (fun st => st.planes.map PlaneModel.heading) hEq
  simp only [change_heading, findSelected, c4State, c4Plane, setFirstById,
    turnBy] at hpl
  norm_num [qmod360] at hpl

/-- Claim C4, amended: every operator command (`change_heading`,
`change_altitude`, `try_land`) is a silent no-op exactly when the current
selection resolves to no tracked aircraft; the commands do not check the
landed/crashed flags, so a selected but inactive aircraft is still
mutated (see the counterexample). -/
theorem commands_noop_without_selection (s : SimState) (d1 : ℚ) (d2 : ℤ)
    (h : findSelected s = none) :
    change_heading d1 s = s ∧ change_altitude d2 s = s ∧
      (try_land s).state = s ∧ (try_land s).message = none ∧
      (try_land s).scheduledId = none := by
  unfold change_heading change_altitude try_land
  rw [h]
  exact ⟨rfl, rfl, rfl, rfl, rfl⟩

/-- Witness for `commands_noop_without_selection` at an empty-selection
state. -/
theorem commands_noop_without_selection_witness :
    change_heading 15 (⟨[c4Plane], 3, none⟩ : SimState) = ⟨[c4Plane], 3, none⟩ ∧
      change_altitude 500 (⟨[c4Plane], 3, none⟩ : SimState) = ⟨[c4Plane], 3, none⟩ ∧
      (try_land (⟨[c4Plane], 3, none⟩ : SimState)).state = ⟨[c4Plane], 3, none⟩ ∧
      (try_land (⟨[c4Plane], 3, none⟩ : SimState)).message = none ∧
      (try_land (⟨[c4Plane], 3, none⟩ : SimState)).scheduledId = none :=
  commands_noop_without_selection ⟨[c4Plane], 3, none⟩ 15 500 rfl

/-! ### Claim C5 -/

/-- Claim C5: spawning always terminates and never fails — the rejection
loop accepts by attempt 11 at the latest; the accepted candidate is
farther than 80 units from every existing aircraft unless the ten
separation-checked attempts were exhausted, in which case the final
(11th) sample is accepted as-is; and `spawn_plane` always appends the
resulting aircraft. -/
theorem spawn_retry_cap (r : SpawnRands) (s : SimState) :
    (spawnLoop r.edge r.draw s.planes 1).2 ≤ 11 ∧
      (farFromAll s.planes (spawnLoop r.edge r.draw s.planes 1).1 = true ∨
        ((spawnLoop r.edge r.draw s.planes 1).2 = 11 ∧
          (spawnLoop r.edge r.draw s.planes 1).1 =
            candidateFor r.edge (r.draw 11).1 (r.draw 11).2)) ∧
      (spawn_plane r s).planes = s.planes ++
        [{ callsign := r.callsign, x := (spawnLoop r.edge r.draw s.planes 1).1.x,
            y := (spawnLoop r.edge r.draw s.planes 1).1.y,
            heading := qmod360 (spawnLoop r.edge r.draw s.planes 1).1.heading,
            speed_kmh := r.speed_kmh, altitude := r.altitude, fuel := r.fuel,
            landed := false, emergency := none, crashed := false, id := r.newId }] := by
  obtain ⟨h1, h2⟩ := spawnLoop_spec r.edge r.draw s.planes 10 1 rfl (by norm_num)
    (by norm_num)
  exact ⟨h1, h2, rfl⟩

/-! ### Claim C7 -/

/-- Claim C7, counterexample: removing an already-removed aircraft with
`penalize=True` is not a no-op — `remove_plane` applies the score
penalty before checking membership, so the score drops from 5 to 4. -/
theorem double_removal_penalizes :
    c7Ghost ∉ c7State.planes ∧ removePlane c7State c7Ghost true ≠ c7State := by
  refine ⟨by simp [c7State], ?_⟩
  intro hEq
  have hs := congrArg SimState.score hEq
  simp only [removePlane, c7State] at hs
  norm_num at hs

/-- Claim C7, amended: removing an already-removed aircraft raises no
error and leaves the aircraft collection and the selection unchanged;
with `penalize=False` it is a complete no-op, while with
`penalize=True` the score penalty (decrement floored at 0) is still
applied. -/
theorem double_removal_noop (st : SimState) (m : PlaneModel)
    (hm : m ∉ st.planes) (hsel : st.selected ≠ some m.id) :
    removePlane st m false = st ∧
      removePlane st m true = { st with score := max 0 (st.score - 1) } := by
  have hrf : removeFirst st.planes m = st.planes := removeFirst_of_not_mem hm
  unfold removePlane
  rw [hrf, if_neg hsel]
  exact ⟨rfl, rfl⟩

/-- Witness for `double_removal_noop` on a concrete state. -/
theorem double_removal_noop_witness :
    removePlane c7State c7Ghost false = c7State ∧
      removePlane c7State c7Ghost true =
        { c7State with score := max 0 (c7State.score - 1) } :=
  double_removal_noop c7State c7Ghost (by simp [c7State]) (by simp [c7State])

/-! ### Claim C8 -/

/-- Claim C8: `turn(d1)` then `turn(d2)` is the same state transition as
`turn(d1+d2)` — including when nothing is selected (both sides no-ops) —
and the heading written by a turn always lies in `[0, 360)`, because
each turn stores `(heading + delta) mod 360`. -/
theorem turn_additive (d1 d2 : ℚ) (s : SimState) :
    change_heading d2 (change_heading d1 s) = change_heading (d1 + d2) s ∧
      (∀ (pid : ℕ) (m : PlaneModel), s.selected = some pid →
        s.planes.find? (fun p => p.id == pid) = some m →
        findSelected (change_heading d1 s) = some (turnBy d1 m) ∧
          (turnBy d1 m).heading = qmod360 (m.heading + d1) ∧
          0 ≤ (turnBy d1 m).heading ∧ (turnBy d1 m).heading < 360) := by
  have hfSel : ∀ (m : PlaneModel) (d : ℚ), findSelected s = some m →
      findSelected (change_heading d s) = some (turnBy d m) := by
    intro m d h1
    rcases hsel : s.selected with _ | pid
    · exfalso
      unfold findSelected at h1
      rw [hsel] at h1
      exact Option.noConfusion h1
    · have hfind : s.planes.find? (fun p => p.id == pid) = some m := by
        unfold findSelected at h1
        rw [hsel] at h1
        exact h1
      have hmid : m.id = pid := findSelected_id hfind
      rw [change_heading_some h1 d]
      unfold findSelected
      simp only [hsel]
      rw [hmid]
      exact find?_setFirstById (turnBy_id d) hfind
  constructor
  · rcases h1 : findSelected s with _ | m
    · rw [change_heading_none h1 d1, change_heading_none h1 d2,
        change_heading_none h1 (d1 + d2)]
    · have h2 := hfSel m d1 h1
      rw [change_heading_some h2 d2, change_heading_some h1 d1,
        change_heading_some h1 (d1 + d2)]
      simp only [turnBy_id]
      rw [setFirstById_comp (turnBy_id d1), turnBy_comp]
  · intro pid m hsel hfind
    exact ⟨hfSel m d1 (findSelected_eq hsel hfind), rfl, qmod360_nonneg _,
      qmod360_lt _⟩


/-- Witness for `turn_additive`: the hypothesis-bearing second part at a
selected aircraft with heading 350. -/
theorem turn_additive_witness :
    findSelected (change_heading 10 w8State) = some (turnBy 10 w8Plane) ∧
      (turnBy 10 w8Plane).heading = qmod360 (w8Plane.heading + 10) ∧
      0 ≤ (turnBy 10 w8Plane).heading ∧ (turnBy 10 w8Plane).heading < 360 :=
  (turn_additive 10 20 w8State).2 5 w8Plane rfl (by
    simp [w8State, w8Plane, List.find?])

/-- `try_land` at an unresolved selection, spelled out. -/
lemma try_land_none {s : SimState} (h : findSelected s = none) :
    try_land s = ⟨s, none, none⟩ := by
  unfold try_land
  rw [h]

/-- `try_land` at a resolved selection inside the landing envelope,
spelled out. -/
lemma try_land_some_pos {s : SimState} {m : PlaneModel}
    (h : findSelected s = some m)
    (hcond : (m.x - landingCenterX) ^ 2 + (m.y - landingCenterY) ^ 2 ≤
      LANDING_ZONE_RADIUS ^ 2 ∧ m.altitude ≤ 800) :
    try_land s =
      ⟨{ planes := setFirstById m.id landPlane s.planes, score := s.score + 10,
          selected := s.selected }, none, some m.id⟩ := by
  unfold try_land
  rw [h]
  exact if_pos hcond

/-- `try_land` at a resolved selection outside the landing envelope,
spelled out. -/
lemma try_land_some_neg {s : SimState} {m : PlaneModel}
    (h : findSelected s = some m)
    (hcond : ¬((m.x - landingCenterX) ^ 2 + (m.y - landingCenterY) ^ 2 ≤
      LANDING_ZONE_RADIUS ^ 2 ∧ m.altitude ≤ 800)) :
    try_land s =
      ⟨s, some "Hors zone ou altitude trop élevée (<=800m).", none⟩ := by
  unfold try_land
  rw [h]
  exact if_neg hcond

/-! ### Claim C1 -/

/-- Claim C1: when, after the per-aircraft pass, two aircraft that are
neither landed nor crashed sit closer than the safe distance with
altitude difference below the safe threshold (the split exhibits them in
scan order), the tick raises a collision event — exactly one, the
`Option` result of the scan, itself a qualifying pair — and returns at
once: the queued out-of-bounds removals are not applied, and score and
selection are untouched. -/
theorem collision_halts_tick (cosF sinF : ℚ → ℚ) (s : SimState)
    (l1 l2 l3 : List PlaneModel) (a b : PlaneModel)
    (hsplit : tickPostMove cosF sinF s.planes = l1 ++ a :: (l2 ++ b :: l3))
    (hab : collides a b = true) :
    (∃ p q : PlaneModel,
      (update_simulation cosF sinF s).collision = some (p.id, q.id) ∧
        collides p q = true) ∧
      (update_simulation cosF sinF s).state.planes =
        tickPostMove cosF sinF s.planes ∧
      (update_simulation cosF sinF s).state.score = s.score ∧
      (update_simulation cosF sinF s).state.selected = s.selected := by
  have hsome : (findCollision (tickPostMove cosF sinF s.planes)).isSome = true := by
    rw [hsplit]
    exact findCollision_isSome_split l1 a l2 b l3 hab
  obtain ⟨pr, hpr⟩ := Option.isSome_iff_exists.mp hsome
  obtain ⟨p, q⟩ := pr
  rw [update_simulation_of_collision hpr]
  exact ⟨⟨p, q, rfl, findCollision_some hpr⟩, rfl, rfl, rfl⟩

/-- Witness for `collision_halts_tick` at the two-aircraft state. -/
theorem collision_halts_tick_witness :
    (∃ p q : PlaneModel,
      (update_simulation (fun _ => 1) (fun _ => 0) w1State).collision =
          some (p.id, q.id) ∧ collides p q = true) ∧
      (update_simulation (fun _ => 1) (fun _ => 0) w1State).state.planes =
        tickPostMove (fun _ => 1) (fun _ => 0) w1State.planes ∧
      (update_simulation (fun _ => 1) (fun _ => 0) w1State).state.score =
        w1State.score ∧
      (update_simulation (fun _ => 1) (fun _ => 0) w1State).state.selected =
        w1State.selected :=
  collision_halts_tick (fun _ => 1) (fun _ => 0) w1State [] [] [] w1A w1B
    (by norm_num [tickPostMove, stepPlane, burnFuel, movedX, movedY, speedPxS,
      outOfBounds, w1State, w1A, w1B, FUEL_CONSUMPTION_PER_TICK, PIXEL_TO_KM,
      tickDt, RADAR_W, RADAR_H])
    (by norm_num [collides, w1A, w1B, SAFE_DISTANCE, ALTITUDE_SAFE_DIFF])

/-! ### Claim C2 -/

/-- Claim C2: an active aircraft whose fuel after the burn step is `≤ 0`
leaves the tick with `fuel = 0` exactly, `crashed = true`, the
fuel-exhaustion emergency, an unchanged position (motion is skipped),
and it is still tracked after the tick (its removal is only scheduled,
and the removal fold of the tick never touches crashed aircraft). -/
theorem fuel_exhaustion_crashes (cosF sinF : ℚ → ℚ) (s : SimState)
    (m : PlaneModel) (hm : m ∈ s.planes) (hl : m.landed = false)
    (hc : m.crashed = false) (hf : burnFuel m ≤ 0) :
    (stepPlane cosF sinF m).plane.fuel = 0 ∧
      (stepPlane cosF sinF m).plane.crashed = true ∧
      (stepPlane cosF sinF m).plane.emergency = some "Panne carburant" ∧
      (stepPlane cosF sinF m).plane.x = m.x ∧
      (stepPlane cosF sinF m).plane.y = m.y ∧
      (stepPlane cosF sinF m).plane ∈ (update_simulation cosF sinF s).state.planes := by
  have hstep : stepPlane cosF sinF m =
      ⟨{ m with fuel := 0, emergency := some "Panne carburant", crashed := true },
        false, true⟩ := by
    unfold stepPlane
    rw [if_neg (by simp [hl, hc]), if_pos hf]
  have hmem : (stepPlane cosF sinF m).plane ∈ tickPostMove cosF sinF s.planes := by
    unfold tickPostMove
    exact List.mem_map_of_mem StepOut.plane (List.mem_map_of_mem _ hm)
  have hcr : (stepPlane cosF sinF m).plane.crashed = true := by rw [hstep]
  refine ⟨by rw [hstep], hcr, by rw [hstep], by rw [hstep], by rw [hstep], ?_⟩
  cases hcol : findCollision (tickPostMove cosF sinF s.planes) with
  | some pr =>
    obtain ⟨p, q⟩ := pr
    rw [update_simulation_of_collision hcol]
    exact hmem
  | none =>
    rw [update_simulation_of_no_collision hcol]
    refine mem_foldl_removePlane _ _ hmem ?_
    intro r hr hEq
    have hrc : r.crashed = false := mem_tickToRemove_not_crashed hr
    rw [← hEq, hcr] at hrc
    exact Bool.noConfusion hrc

/-- Witness for `fuel_exhaustion_crashes` at the fuel-starved state. -/
theorem fuel_exhaustion_crashes_witness :
    (stepPlane (fun _ => 1) (fun _ => 0) w2Plane).plane.fuel = 0 ∧
      (stepPlane (fun _ => 1) (fun _ => 0) w2Plane).plane.crashed = true ∧
      (stepPlane (fun _ => 1) (fun _ => 0) w2Plane).plane.emergency =
        some "Panne carburant" ∧
      (stepPlane (fun _ => 1) (fun _ => 0) w2Plane).plane.x = w2Plane.x ∧
      (stepPlane (fun _ => 1) (fun _ => 0) w2Plane).plane.y = w2Plane.y ∧
      (stepPlane (fun _ => 1) (fun _ => 0) w2Plane).plane ∈
        (update_simulation (fun _ => 1) (fun _ => 0) w2State).state.planes :=
  fuel_exhaustion_crashes (fun _ => 1) (fun _ => 0) w2State w2Plane
    (by simp [w2State]) rfl rfl
    (by norm_num [burnFuel, w2Plane, FUEL_CONSUMPTION_PER_TICK])

/-! ### Claim C3 -/

/-- Claim C3: with a selection resolving to aircraft `m`, `try_land`
succeeds exactly when the squared distance to the landing center is
within the squared zone radius and the altitude is at most 800 m; on
success it lands the aircraft (`landed = true`, `speed_kmh = 0`), adds
10 to the score and schedules the non-penalized removal; on failure it
reports the rejection message and leaves the whole session state
unchanged, no matter how often the failed attempt is repeated. -/
theorem try_land_success_iff (s : SimState) (pid : ℕ) (m : PlaneModel)
    (hsel : s.selected = some pid)
    (hfind : s.planes.find? (fun p => p.id == pid) = some m) :
    (((m.x - landingCenterX) ^ 2 + (m.y - landingCenterY) ^ 2 ≤
        LANDING_ZONE_RADIUS ^ 2 ∧ m.altitude ≤ 800) →
      (try_land s).state.planes = setFirstById m.id landPlane s.planes ∧
        (try_land s).state.score = s.score + 10 ∧
        (try_land s).state.selected = s.selected ∧
        (try_land s).message = none ∧
        (try_land s).scheduledId = some m.id ∧
        findSelected (try_land s).state = some (landPlane m) ∧
        (landPlane m).landed = true ∧ (landPlane m).speed_kmh = 0) ∧
      (¬((m.x - landingCenterX) ^ 2 + (m.y - landingCenterY) ^ 2 ≤
          LANDING_ZONE_RADIUS ^ 2 ∧ m.altitude ≤ 800) →
        (try_land s).state = s ∧
          (try_land s).message = some "Hors zone ou altitude trop élevée (<=800m)." ∧
          (try_land s).scheduledId = none ∧
          ∀ n : ℕ, (fun st => (try_land st).state)^[n] s = s) := by
  have h1 : findSelected s = some m := findSelected_eq hsel hfind
  have hmid : m.id = pid := findSelected_id hfind
  constructor
  · intro hcond
    have hres : try_land s =
        ⟨{ planes := setFirstById m.id landPlane s.planes, score := s.score + 10,
            selected := s.selected }, none, some m.id⟩ := by
      unfold try_land
      rw [h1]
      exact if_pos hcond
    rw [hres]
    refine ⟨rfl, rfl, rfl, rfl, rfl, ?_, rfl, rfl⟩
    unfold findSelected
    simp only [hsel]
    rw [hmid]
    exact find?_setFirstById (fun p => rfl) hfind
  · intro hcond
    have hres : try_land s =
        ⟨s, some "Hors zone ou altitude trop élevée (<=800m).", none⟩ := by
      unfold try_land
      rw [h1]
      exact if_neg hcond
    have hstate : (try_land s).state = s := by rw [hres]
    refine ⟨hstate, by rw [hres], by rw [hres], ?_⟩
    intro n
    induction n with
    | zero => rfl
    | succ n ih =>
      rw [Function.iterate_succ_apply]
      show (fun st => (try_land st).state)^[n] ((try_land s).state) = s
      rw [hstate]
      exact ih

/-- Witness for `try_land_success_iff`: the success branch at the
landing-zone center. -/
theorem try_land_success_iff_witness :
    (try_land w3State).state.planes =
        setFirstById w3Plane.id landPlane w3State.planes ∧
      (try_land w3State).state.score = w3State.score + 10 ∧
      (try_land w3State).state.selected = w3State.selected ∧
      (try_land w3State).message = none ∧
      (try_land w3State).scheduledId = some w3Plane.id ∧
      findSelected (try_land w3State).state = some (landPlane w3Plane) ∧
      (landPlane w3Plane).landed = true ∧ (landPlane w3Plane).speed_kmh = 0 :=
  (try_land_success_iff w3State 21 w3Plane rfl
      (by simp [w3State, w3Plane, List.find?])).1
    (by norm_num [w3Plane, landingCenterX, landingCenterY, LANDING_ZONE_RADIUS,
      RADAR_W, RADAR_H])


/-! ### Claim C6 -/

/-- Claim C6, failing input: ids come from `random.randint(1000, 9999)`
with no uniqueness check against the existing collection, so a spawn
whose id draw repeats an id already in use produces two tracked aircraft
with the same id. -/
theorem spawn_id_collision :
    ((spawn_plane c6Rands c6State).planes.map PlaneModel.id) = [1234, 1234] ∧
      ¬((spawn_plane c6Rands c6State).planes.map PlaneModel.id).Nodup := by
  have hfar : farFromAll [c6Existing] (candidateFor SpawnEdge.top 400 180) = true := by
    norm_num [farFromAll, candidateFor, c6Existing, spawnMargin]
  have hloop : spawnLoop SpawnEdge.top (fun _ => ((400 : ℚ), (180 : ℚ)))
      [c6Existing] 1 = (candidateFor SpawnEdge.top 400 180, 1) := by
    rw [spawnLoop]
    simp [hfar]
  constructor
  · simp [spawn_plane, c6Rands, c6State, hloop, c6Existing]
  · simp [spawn_plane, c6Rands, c6State, hloop, c6Existing]

/-! ### Claim C9 -/

/-- Claim C9, counterexample: the two revisions are not equivalent.  On
a state with one active aircraft, `src/2.py` burns fuel and moves the
aircraft, while the `src/etienne&lili.py` revision — whose fuel/motion
code is dead behind the early `continue` — leaves it untouched. -/
theorem tick_revisions_differ :
    (update_simulation (fun _ => 1) (fun _ => 0) c9State).state.planes ≠
      (update_simulationEL c9State).state.planes := by
  norm_num [update_simulation, update_simulationEL, tickPostMove, tickToRemove,
    tickScheduled, stepPlane, burnFuel, movedX, movedY, speedPxS, outOfBounds,
    findCollision, collides, elLoop, c9Plane, c9State, FUEL_CONSUMPTION_PER_TICK,
    PIXEL_TO_KM, tickDt, RADAR_W, RADAR_H, SAFE_DISTANCE, ALTITUDE_SAFE_DIFF,
    removePlane, removeFirst, PlaneModel.mk.injEq]

/-- Claim C9, amended: the two revisions' ticks agree only in degenerate
situations where the dead fuel/motion code cannot matter — e.g. whenever
every tracked aircraft is already landed or crashed, both ticks return
the state unchanged with no event and no removals. -/
theorem tick_revisions_agree_inactive (cosF sinF : ℚ → ℚ) (s : SimState)
    (h : ∀ m ∈ s.planes, m.landed = true ∨ m.crashed = true) :
    update_simulation cosF sinF s = update_simulationEL s := by
  have hpm := tickPostMove_inactive cosF sinF s.planes h
  have hcol : findCollision (tickPostMove cosF sinF s.planes) = none := by
    rw [hpm]
    exact findCollision_none_inactive h
  have hcolS : findCollision s.planes = none := by
    rw [← hpm]
    exact hcol
  rw [update_simulation_of_no_collision hcol]
  rw [tickToRemove_inactive cosF sinF s.planes h,
    tickScheduled_inactive cosF sinF s.planes h, hpm]
  unfold update_simulationEL
  rw [elLoop_none hcolS s.planes]
  rfl

/-- Witness for `tick_revisions_agree_inactive` on a state holding one
crashed aircraft. -/
theorem tick_revisions_agree_inactive_witness :
    update_simulation (fun _ => 1) (fun _ => 0) ⟨[c9Crashed], 2, none⟩ =
      update_simulationEL ⟨[c9Crashed], 2, none⟩ :=
  tick_revisions_agree_inactive (fun _ => 1) (fun _ => 0) ⟨[c9Crashed], 2, none⟩
    (by
      intro m hm
      simp only [List.mem_singleton] at hm
      rw [hm]
      exact Or.inr rfl)

/-! ### Claim C10 -/

/-- Claim C10: no tick and no command ever changes an aircraft's speed,
except that a successful landing zeroes it — every aircraft present
after `update_simulation`, `change_heading` or `change_altitude`
descends from a tracked aircraft with the same id and the same
`speed_kmh`, and after `try_land` the speed is either unchanged or the
aircraft has just landed with speed 0. -/
theorem speed_frame (cosF sinF : ℚ → ℚ) (d1 : ℚ) (d2 : ℤ) (s : SimState) :
    (∀ p ∈ (update_simulation cosF sinF s).state.planes,
      ∃ q ∈ s.planes, p.id = q.id ∧ p.speed_kmh = q.speed_kmh) ∧
      (∀ p ∈ (change_heading d1 s).planes,
        ∃ q ∈ s.planes, p.id = q.id ∧ p.speed_kmh = q.speed_kmh) ∧
      (∀ p ∈ (change_altitude d2 s).planes,
        ∃ q ∈ s.planes, p.id = q.id ∧ p.speed_kmh = q.speed_kmh) ∧
      (∀ p ∈ (try_land s).state.planes,
        ∃ q ∈ s.planes, p.id = q.id ∧
          (p.speed_kmh = q.speed_kmh ∨ (p.speed_kmh = 0 ∧ p.landed = true))) := by
  refine ⟨?_, ?_, ?_, ?_⟩
  · intro p hp
    have hp2 := mem_update_simulation_planes hp
    unfold tickPostMove at hp2
    rw [List.map_map] at hp2
    obtain ⟨q, hq, rfl⟩ := List.mem_map.mp hp2
    exact ⟨q, hq, stepPlane_id cosF sinF q, stepPlane_speed cosF sinF q⟩
  · intro p hp
    unfold change_heading at hp
    cases hsel : findSelected s with
    | none =>
      rw [hsel] at hp
      exact ⟨p, hp, rfl, rfl⟩
    | some m =>
      rw [hsel] at hp
      have hp2 : p ∈ setFirstById m.id (turnBy d1) s.planes := hp
      obtain ⟨q, hq, hor⟩ := mem_setFirstById hp2
      rcases hor with h | h
      · exact ⟨q, hq, by rw [h], by rw [h]⟩
      · exact ⟨q, hq, by rw [h]; rfl, by rw [h]; rfl⟩
  · intro p hp
    unfold change_altitude at hp
    cases hsel : findSelected s with
    | none =>
      rw [hsel] at hp
      exact ⟨p, hp, rfl, rfl⟩
    | some m =>
      rw [hsel] at hp
      have hp2 : p ∈ setFirstById m.id (climbBy d2) s.planes := hp
      obtain ⟨q, hq, hor⟩ := mem_setFirstById hp2
      rcases hor with h | h
      · exact ⟨q, hq, by rw [h], by rw [h]⟩
      · exact ⟨q, hq, by rw [h]; rfl, by rw [h]; rfl⟩
  · intro p hp
    cases hsel : findSelected s with
    | none =>
      rw [try_land_none hsel] at hp
      exact ⟨p, hp, rfl, Or.inl rfl⟩
    | some m =>
      by_cases hcond : (m.x - landingCenterX) ^ 2 + (m.y - landingCenterY) ^ 2 ≤
          LANDING_ZONE_RADIUS ^ 2 ∧ m.altitude ≤ 800
      · rw [try_land_some_pos hsel hcond] at hp
        have hp2 : p ∈ setFirstById m.id landPlane s.planes := hp
        obtain ⟨q, hq, hor⟩ := mem_setFirstById hp2
        rcases hor with h | h
        · exact ⟨q, hq, by rw [h], Or.inl (by rw [h])⟩
        · exact ⟨q, hq, by rw [h]; rfl, Or.inr ⟨by rw [h]; rfl, by rw [h]; rfl⟩⟩
      · rw [try_land_some_neg hsel hcond] at hp
        exact ⟨p, hp, rfl, Or.inl rfl⟩

/-- Witness for `speed_frame`: all four parts discharged on the
`w10State` scenario. -/
theorem speed_frame_witness :
    (∃ q ∈ w10State.planes,
      (⟨"W10", 30, 40, 0, 200, 3000, 79999 / 1000, false, none, false, 77⟩ :
          PlaneModel).id = q.id ∧
        (⟨"W10", 30, 40, 0, 200, 3000, 79999 / 1000, false, none, false, 77⟩ :
          PlaneModel).speed_kmh = q.speed_kmh) ∧
      (∃ q ∈ w10State.planes, w10Plane.id = q.id ∧
        w10Plane.speed_kmh = q.speed_kmh) ∧
      (∃ q ∈ w10State.planes, w10Plane.id = q.id ∧
        w10Plane.speed_kmh = q.speed_kmh) ∧
      (∃ q ∈ w10State.planes, w10Plane.id = q.id ∧
        (w10Plane.speed_kmh = q.speed_kmh ∨
          (w10Plane.speed_kmh = 0 ∧ w10Plane.landed = true))) :=
  ⟨(speed_frame (fun _ => 0) (fun _ => 0) 15 500 w10State).1
      ⟨"W10", 30, 40, 0, 200, 3000, 79999 / 1000, false, none, false, 77⟩
      (by norm_num [update_simulation, tickPostMove, tickToRemove, tickScheduled,
        stepPlane, burnFuel, movedX, movedY, speedPxS, outOfBounds, findCollision,
        collides, w10State, w10Plane, FUEL_CONSUMPTION_PER_TICK, PIXEL_TO_KM,
        tickDt, RADAR_W, RADAR_H, removePlane, removeFirst]),
    (speed_frame (fun _ => 0) (fun _ => 0) 15 500 w10State).2.1 w10Plane
      (by simp [change_heading, findSelected, w10State]),
    (speed_frame (fun _ => 0) (fun _ => 0) 15 500 w10State).2.2.1 w10Plane
      (by simp [change_altitude, findSelected, w10State]),
    (speed_frame (fun _ => 0) (fun _ => 0) 15 500 w10State).2.2.2 w10Plane
      (by simp [try_land, findSelected, w10State])⟩

end ATC